import Mathlib

/-!
Shallow embedding of the SattelishMaps backend scheduler core and its
collaborating services, translated from the Python sources:

* `backend/services/sentinelhub_service.py` — the Statistical-API response
  processing loop (`_run_statistical_request`, lines 204-248);
* `backend/services/supabase_service.py` — `insert_region_statistics`
  (plain insert, lines 279-291);
* `backend/scripts/fetch_historical_stats.py` — the per-region
  delete-then-insert persistence routine (`fetch_and_save_stats`);
* `backend/services/copernicus_service.py` — `save_to_supabase`
  (lines 139-181);
* `backend/scheduler.py` — `SatelliteDataScheduler` (`__init__`,
  `fetch_and_process_sentinel_data`, `get_status`).

Numeric statistic values (means, cloud percentages, ...) are carried
opaquely by a type parameter `α` (the code only moves them around; the
properties verified here never compute with them).  Collaborator calls
(Sentinel Hub network requests, Supabase queries and the two metadata
calculators, which are pure float estimation) are modelled as oracle
functions returning `Except PyErr _`, mirroring the Python calls that may
raise; mutable `self` state is passed explicitly.
-/

/-- A raised Python exception, identified by its message. -/
structure PyErr where
  msg : String
deriving DecidableEq, Repr

/-! ### Sentinel Hub Statistical API response shapes

JSON objects are modelled structurally; a JSON sub-object that the code
accesses with `dict.get` is an `Option` (`none` covering both a missing key
and Python-falsy `{}`), and string-keyed maps are association lists. -/

/-- The `stats` object of one band:
`{sampleCount, mean, min, max, stDev, percentiles}`, every key optional
(read with `stats.get(...)` in the source). -/
structure StatsObj (α : Type) where
  sampleCount : Option Nat
  mean : Option α
  min : Option α
  max : Option α
  stDev : Option α
  percentiles : List (String × α)
deriving DecidableEq

/-- One band object; the code reads `.get("stats", {})` and skips when the
result is falsy, so the stats object is optional. -/
structure Band (α : Type) where
  stats : Option (StatsObj α)
deriving DecidableEq

/-- One output object: `{"bands": {band_name: Band, ...}}`; a missing
`bands` key (read with `.get("bands", {})`) is the empty list. -/
structure OutputObj (α : Type) where
  bands : List (String × Band α)
deriving DecidableEq

/-- One item of a page's `data` list:
`{"interval": {"from": ...}, "outputs": {output_name: OutputObj, ...}}`. -/
structure Item (α : Type) where
  interval_from : String
  outputs : List (String × OutputObj α)
deriving DecidableEq

/-- One page returned by `request.get_data()`; `data = none` models a page
without a `"data"` key (`if "data" not in page: continue`). -/
structure Page (α : Type) where
  data : Option (List (Item α))
deriving DecidableEq

/-- One element of `processed_results` as built by
`_run_statistical_request`. -/
structure ProcessedItem (α : Type) where
  date : String
  mean : Option α
  min : Option α
  max : Option α
  stDev : Option α
  percentiles : List (String × α)
  sample_count : Option Nat
deriving DecidableEq

/-- The body of the `for item in page["data"]` loop of
`_run_statistical_request` (sentinelhub_service.py lines 215-246):
skip when `outputs` is missing/falsy or has no truthy entry for
`output_name`; read its `bands`; pick `band_key` (`output_name` when
present, else the first key); read that band's `stats`, skipping when
falsy; skip when `stats.get("sampleCount", 0) == 0`; otherwise emit the
processed record. -/
def processItem {α : Type} (output_name : String) (item : Item α) :
    Option (ProcessedItem α) :=
  match item.outputs.lookup output_name with
  | none => none
  | some out =>
    match out.bands with
    | [] => none
    | (k₀, _) :: _ =>
      let band_key :=
        if (out.bands.lookup output_name).isSome then output_name else k₀
      match (out.bands.lookup band_key).bind Band.stats with
      | none => none
      | some stats =>
        if stats.sampleCount.getD 0 == 0 then none
        else some
          { date := item.interval_from
            mean := stats.mean
            min := stats.min
            max := stats.max
            stDev := stats.stDev
            percentiles := stats.percentiles
            sample_count := stats.sampleCount }

/-- One page of the outer `for page in data` loop: pages without a `data`
key contribute nothing; otherwise each item is processed in order. -/
def processPage {α : Type} (output_name : String) (page : Page α) :
    List (ProcessedItem α) :=
  match page.data with
  | none => []
  | some items => items.filterMap (processItem output_name)

/-- The response-processing part of
`SentinelHubService._run_statistical_request` (lines 204-248): the pages
are the value of `request.get_data()` (the network collaborator), and
`processed_results` accumulates across pages in order. -/
def run_statistical_request {α : Type} (pages : List (Page α))
    (output_name : String) : List (ProcessedItem α) :=
  (pages.map (processPage output_name)).flatten

/-! ### Region statistics persistence (`supabase_service.py`,
`fetch_historical_stats.py`) -/

/-- One row of the `region_statistics` table, as the save loop of
`fetch_historical_stats.py` (lines 53-64 / 74-84) builds it. -/
structure RegionStatRow (α : Type) where
  region_name : String
  date : String
  index_type : String
  mean : Option α
  min : Option α
  max : Option α
  std : Option α
  sample_count : Option Nat
deriving DecidableEq

/-- Store-level effect of a successful
`SupabaseService.insert_region_statistics` (supabase_service.py lines
279-291): the underlying call is `table('region_statistics').insert(data)`
— a plain INSERT with no on-conflict clause — so it appends a new row. -/
def insert_region_statistics {α : Type} (store : List (RegionStatRow α))
    (data : RegionStatRow α) : List (RegionStatRow α) :=
  store ++ [data]

/-- The row dict handed to `insert_region_statistics` for one processed
record (fetch_historical_stats.py lines 54-64). -/
def rowOfRecord {α : Type} (region_name index_type : String)
    (record : ProcessedItem α) : RegionStatRow α :=
  { region_name := region_name
    date := record.date
    index_type := index_type
    mean := record.mean
    min := record.min
    max := record.max
    std := record.stDev
    sample_count := record.sample_count }

/-- The `for record in ..._data:` insert loop of
`fetch_and_save_stats` (fetch_historical_stats.py lines 53-64 / 74-84):
one `insert_region_statistics` call per processed record.  This is only
the insert half of the routine — the same function unconditionally
deletes the region's rows first (line 39); the full persistence step is
`fetch_and_save_stats` below. -/
def saveIndexStats {α : Type} (store : List (RegionStatRow α))
    (region_name index_type : String) (records : List (ProcessedItem α)) :
    List (RegionStatRow α) :=
  records.foldl
    (fun st record =>
      insert_region_statistics st (rowOfRecord region_name index_type record))
    store

/-- The natural key `(region_name, date, index_type)` of a stored row. -/
def naturalKey {α : Type} (row : RegionStatRow α) :
    String × String × String :=
  (row.region_name, row.date, row.index_type)

/-- Number of stored rows carrying a given natural key. -/
def countKey {α : Type} (store : List (RegionStatRow α))
    (k : String × String × String) : Nat :=
  store.countP (fun row => decide (naturalKey row = k))

/-- Store-level effect of
`table('region_statistics').delete().eq('region_name', region_name)`
(fetch_historical_stats.py line 39, the "Clear existing stats for this
region to avoid duplicates" step): keeps exactly the rows of other
regions. -/
def delete_region_statistics {α : Type} (store : List (RegionStatRow α))
    (region_name : String) : List (RegionStatRow α) :=
  store.filter (fun row => row.region_name != region_name)

/-- The persistence step of `fetch_and_save_stats`
(fetch_historical_stats.py lines 36-84, success path): delete every
`region_statistics` row of the region (line 39), then run the NDVI insert
loop (lines 53-64) and the NDWI insert loop (lines 74-84) over the two
response lists.  The dead `for record in ndvi_data: pass` loop at lines
70-72 has no effect; the response lists are the Sentinel Hub
collaborator's value, and the store calls are modelled on their success
path (the routine's enclosing try/except only logs a store error and
aborts the rest of the region). -/
def fetch_and_save_stats {α : Type} (store : List (RegionStatRow α))
    (region_name : String) (ndvi_data ndwi_data : List (ProcessedItem α)) :
    List (RegionStatRow α) :=
  saveIndexStats
    (saveIndexStats (delete_region_statistics store region_name)
      region_name "NDVI" ndvi_data)
    region_name "NDWI" ndwi_data

/-! ### Scheduler state and collaborators (`scheduler.py`) -/

/-- Configuration surface the scheduler reads
(`config/settings.py` lines 24-28).  `DEFAULT_CLOUD_MAX` is a float in the
source with integral default 30.0; its value is only passed through, so it
is carried as an `Int`. -/
structure Settings where
  SCHEDULER_ENABLED : Bool
  SCHEDULER_INTERVAL_HOURS : Nat
  DEFAULT_SEARCH_BOUNDS : String
  DEFAULT_CLOUD_MAX : Int
  PROCESS_HISTORICAL_DATA : Bool
deriving DecidableEq

/-- A Sentinel-2 product dict as produced by
`search_sentinel2_products` (copernicus_service.py lines 90-108); float
fields are carried as `Int` and the nested metadata dict as an opaque
string, since the scheduler only moves them around. -/
structure Product where
  product_id : String
  title : String
  acquisition_date : String
  processing_date : Option String
  cloud_coverage : Int
  footprint : String
  center_point : Option (Int × Int)
  thumbnail_url : String
  download_url : String
  metadata : String
deriving DecidableEq

/-- The row dict `save_to_supabase` builds for `insert_satellite_image`
(copernicus_service.py lines 155-169). -/
structure ImageData where
  product_id : String
  title : String
  acquisition_date : String
  processing_date : Option String
  cloud_coverage : Int
  thumbnail_url : String
  download_url : String
  metadata : String
  center_point : Option String
deriving DecidableEq

/-- The `data` dict preparation inside the save loop: the acquisition date is
already ISO text in this model, and `center_point` is rendered to
`POINT(lon lat)` when present. -/
def prepare_image_data (p : Product) : ImageData :=
  { product_id := p.product_id
    title := p.title
    acquisition_date := p.acquisition_date
    processing_date := p.processing_date
    cloud_coverage := p.cloud_coverage
    thumbnail_url := p.thumbnail_url
    download_url := p.download_url
    metadata := p.metadata
    center_point := p.center_point.map
      (fun cp => "POINT(" ++ toString cp.1 ++ " " ++ toString cp.2 ++ ")") }

/-- Result of `check_image_has_indices` (supabase_service.py lines
479-494); that helper catches internally and always returns a dict. -/
structure IndicesStatus where
  has_ndvi : Bool
  has_ndwi : Bool
  has_both : Bool
deriving DecidableEq

/-- Payload of `calculate_ndvi_from_metadata` /
`calculate_ndwi_from_metadata`; only its target image matters here. -/
structure IndexData where
  image_id : String
deriving DecidableEq

/-- An observable side-effecting call the job makes against its
collaborators: the Copernicus search, and the three record-store writes. -/
inductive Event where
  | searchCall (dateFrom dateTo : Int)
  | insertImage (product_id : String)
  | insertNdvi (image_id : String)
  | insertNdwi (image_id : String)
deriving DecidableEq

/-- Behaviour of every collaborator the job calls, one function per call
site; `Except PyErr _` marks the calls whose Python counterpart may raise.
Dates/times are integer day numbers. -/
structure SchedulerOracle where
  /-- Result of `copernicus_service.is_available()` (never raises). -/
  available : Bool
  /-- Result of `supabase_service.get_latest_processed_date()` — catches internally,
  returns an ISO string or `None`. -/
  latestProcessedDate : Option String
  /-- Behaviour of `datetime.fromisoformat(s.replace('Z', '+00:00')).date()` — raises
  `ValueError` on malformed input. -/
  parseIso : String → Except PyErr Int
  /-- Behaviour of `copernicus_service.search_sentinel2_products(area, (from, to),
  cloud_max, limit)` for the fixed configured area/threshold — may raise. -/
  searchProducts : Int → Int → Except PyErr (List Product)
  /-- Behaviour of `supabase_service.insert_satellite_image(data)` — may raise. -/
  insert_satellite_image : ImageData → Except PyErr Unit
  /-- the `satellite_images` lookup by `product_id` via
  `.single().execute()` — may raise; `none` models falsy `.data`; the
  payload is the row's `id`. -/
  getImageRow : String → Except PyErr (Option String)
  /-- Behaviour of `supabase_service.check_image_has_indices(image_id)` (never
  raises). -/
  check_image_has_indices : String → IndicesStatus
  /-- Behaviour of `ndvi_calculator.calculate_ndvi_from_metadata(...)` — pure float
  estimation in the source, abstracted; may re-raise. -/
  calc_ndvi : String → Product → Except PyErr IndexData
  /-- Behaviour of `supabase_service.insert_ndvi_data(data)` — may raise. -/
  insert_ndvi_data : IndexData → Except PyErr Unit
  /-- Behaviour of `ndwi_calculator.calculate_ndwi_from_metadata(...)`. -/
  calc_ndwi : String → Product → Except PyErr IndexData
  /-- Behaviour of `supabase_service.insert_ndwi_data(data)` — may raise. -/
  insert_ndwi_data : IndexData → Except PyErr Unit

/-- Mutable fields of `SatelliteDataScheduler` (scheduler.py lines 30-36);
`scheduler` holds, when the APScheduler handle exists, the
`next_run_time` of its registered job. -/
structure SchedState where
  scheduler : Option (Option String)
  is_running : Bool
  last_run : Option Int
  total_runs : Nat
  successful_runs : Nat
  failed_runs : Nat
deriving DecidableEq

/-- The freshly constructed scheduler (`__init__`). -/
def initState : SchedState :=
  { scheduler := none
    is_running := false
    last_run := none
    total_runs := 0
    successful_runs := 0
    failed_runs := 0 }

/-- Date-range computation of `fetch_and_process_sentinel_data`
(scheduler.py lines 55-67): when a latest processed date exists and
`PROCESS_HISTORICAL_DATA` is off, parse it (parsing may raise); otherwise
take the last 7 days; `date_to` is today. -/
def computeWindow (processHistorical : Bool) (latest : Option String)
    (parseIso : String → Except PyErr Int) (now : Int) :
    Except PyErr (Int × Int) :=
  match latest, processHistorical with
  | some d, false =>
    match parseIso d with
    | .error e => .error e
    | .ok date_from => .ok (date_from, now)
  | _, _ => .ok (now - 7, now)

/-- Embedding of `CopernicusService.save_to_supabase` (lines 139-181): one
`insert_satellite_image` attempt per product, each wrapped in its own
try/except — a failed insert is logged and skipped (`continue`), so the
loop always reaches every product and returns the number of successful
saves. -/
def save_to_supabase (o : SchedulerOracle) (products : List Product) :
    Nat × List Event :=
  products.foldl
    (fun acc p =>
      let evts := acc.2 ++ [Event.insertImage p.product_id]
      match o.insert_satellite_image (prepare_image_data p) with
      | .ok _ => (acc.1 + 1, evts)
      | .error _ => (acc.1, evts))
    (0, [])

/-- The NDVI branch of the per-product loop (scheduler.py lines 116-124):
calculate, then insert; either call may raise, and an insert is an
attempted write whether or not it raises. -/
def ndviStep (o : SchedulerOracle) (p : Product) (image_id : String) :
    List Event × Option PyErr :=
  match o.calc_ndvi image_id p with
  | .error e => ([], some e)
  | .ok nd =>
    match o.insert_ndvi_data nd with
    | .ok _ => ([Event.insertNdvi image_id], none)
    | .error e => ([Event.insertNdvi image_id], some e)

/-- The NDWI branch of the per-product loop (scheduler.py lines 127-135). -/
def ndwiStep (o : SchedulerOracle) (p : Product) (image_id : String) :
    List Event × Option PyErr :=
  match o.calc_ndwi image_id p with
  | .error e => ([], some e)
  | .ok nd =>
    match o.insert_ndwi_data nd with
    | .ok _ => ([Event.insertNdwi image_id], none)
    | .error e => ([Event.insertNdwi image_id], some e)

/-- Body of `for product in products:` (scheduler.py lines 94-142), all of
it inside a per-product try/except whose handler logs and `continue`s:
returns whether `processed_count` was incremented, plus the attempted
writes. -/
def process_product (o : SchedulerOracle) (p : Product) :
    Bool × List Event :=
  match o.getImageRow p.product_id with
  | .error _ => (false, [])
  | .ok none => (false, [])
  | .ok (some image_id) =>
    let ist := o.check_image_has_indices image_id
    if ist.has_both then (false, [])
    else
      let s₁ := if ist.has_ndvi then ([], none) else ndviStep o p image_id
      match s₁.2 with
      | some _ => (false, s₁.1)
      | none =>
        let s₂ := if ist.has_ndwi then ([], none) else ndwiStep o p image_id
        match s₂.2 with
        | some _ => (false, s₁.1 ++ s₂.1)
        | none => (true, s₁.1 ++ s₂.1)

/-- The whole per-product loop: `processed_count` plus attempted writes,
in product order. -/
def processLoop (o : SchedulerOracle) (products : List Product) :
    Nat × List Event :=
  products.foldl
    (fun acc p =>
      let r := process_product o p
      (acc.1 + (if r.1 then 1 else 0), acc.2 ++ r.2))
    (0, [])

/-- Outcome of one job invocation: the scheduler state after it, the
collaborator calls it made, the `saved_count` / `processed_count` values
it logged (when the run got that far), and the exception escaping the
`try` body, if any. -/
structure RunResult where
  state : SchedState
  events : List Event
  saved : Option Nat
  processed : Option Nat
  escaped : Option PyErr
deriving DecidableEq

/-- The `try:` body of `fetch_and_process_sentinel_data` (scheduler.py
lines 42-151): bump `total_runs` and stamp `last_run`; return early when
the Copernicus client is unavailable (no outcome counter touched);
compute the search window (a parse error escapes); search (a provider
error escapes); an empty product list is a successful run with no further
calls; otherwise save all products, process each one, and count the run
successful. -/
def fetchBody (o : SchedulerOracle) (st : Settings) (now : Int)
    (s : SchedState) : RunResult :=
  let s := { s with total_runs := s.total_runs + 1, last_run := some now }
  if o.available = false then
    { state := s, events := [], saved := none, processed := none,
      escaped := none }
  else
    match computeWindow st.PROCESS_HISTORICAL_DATA o.latestProcessedDate
        o.parseIso now with
    | .error e =>
      { state := s, events := [], saved := none, processed := none,
        escaped := some e }
    | .ok (date_from, date_to) =>
      match o.searchProducts date_from date_to with
      | .error e =>
        { state := s, events := [Event.searchCall date_from date_to],
          saved := none, processed := none, escaped := some e }
      | .ok products =>
        if products.isEmpty then
          { state := { s with successful_runs := s.successful_runs + 1 }
            events := [Event.searchCall date_from date_to]
            saved := none, processed := none, escaped := none }
        else
          let saved := save_to_supabase o products
          let processed := processLoop o products
          { state := { s with successful_runs := s.successful_runs + 1 }
            events := Event.searchCall date_from date_to ::
              (saved.2 ++ processed.2)
            saved := some saved.1
            processed := some processed.1
            escaped := none }

/-- Embedding of `SatelliteDataScheduler.fetch_and_process_sentinel_data` (lines
38-155): the body above wrapped in `except Exception`, whose handler logs
and bumps `failed_runs`. -/
def fetch_and_process_sentinel_data (o : SchedulerOracle) (st : Settings)
    (now : Int) (s : SchedState) : RunResult :=
  let r := fetchBody o st now s
  match r.escaped with
  | none => r
  | some _ =>
    { r with
      state := { r.state with failed_runs := r.state.failed_runs + 1 }
      escaped := none }

/-- The record-store writes among a run's collaborator calls. -/
def writeEvents (events : List Event) : List Event :=
  events.filter
    (fun e => match e with
      | .searchCall _ _ => false
      | _ => true)

/-- A sequence of completed job invocations (each with its collaborators'
behaviour and its start time), folded over the scheduler state. -/
def runMany (st : Settings) (runs : List (SchedulerOracle × Int))
    (s : SchedState) : SchedState :=
  runs.foldl
    (fun s r => (fetch_and_process_sentinel_data r.1 st r.2 s).state) s

/-- Runs skipped by the `is_available` early return. -/
def countSkipped (runs : List (SchedulerOracle × Int)) : Nat :=
  runs.countP (fun r => r.1.available = false)

/-- A value of the status dict returned by `get_status`. -/
inductive StatusVal where
  | b (x : Bool)
  | n (x : Nat)
  | i (x : Int)
  | s (x : String)
  | optS (x : Option String)
deriving DecidableEq

/-- Embedding of `SatelliteDataScheduler.get_status` (scheduler.py lines 218-237),
state-passing form: computes `next_run` from the APScheduler job handle
when the scheduler object exists and is running, then returns the status
dict; the second component is the scheduler state after the call. -/
def get_status (st : Settings) (s : SchedState) :
    List (String × StatusVal) × SchedState :=
  let next_run : Option String :=
    match s.scheduler, s.is_running with
    | some job_next, true => job_next
    | _, _ => none
  ([("enabled", .b st.SCHEDULER_ENABLED),
    ("running", .b s.is_running),
    ("interval_hours", .n st.SCHEDULER_INTERVAL_HOURS),
    ("last_run", .optS (s.last_run.map toString)),
    ("next_run", .optS next_run),
    ("total_runs", .n s.total_runs),
    ("successful_runs", .n s.successful_runs),
    ("failed_runs", .n s.failed_runs),
    ("search_bounds", .s st.DEFAULT_SEARCH_BOUNDS),
    ("max_cloud_coverage", .i st.DEFAULT_CLOUD_MAX)], s)

/-! ### Concrete fixtures used by witnesses and counterexamples -/

/-- A well-formed statistics item for the `ndvi` output with the given
interval start and sample count. -/
def mkNdviItem (d : String) (n : Nat) : Item Int :=
  { interval_from := d
    outputs :=
      [("ndvi",
        { bands :=
            [("ndvi",
              { stats := some
                  { sampleCount := some n
                    mean := some 1
                    min := some 0
                    max := some 2
                    stDev := some 1
                    percentiles := [] } })] })] }

/-- The processed record `mkNdviItem` yields. -/
def mkNdviRecord (d : String) (n : Nat) : ProcessedItem Int :=
  { date := d
    mean := some 1
    min := some 0
    max := some 2
    stDev := some 1
    percentiles := []
    sample_count := some n }

/-- Two raw entries on the same calendar date, with sample counts 50 and
120 — the spec's own dedup test vector. -/
def sameDayPages : List (Page Int) :=
  [{ data := some
      [mkNdviItem "2024-06-01T00:00:00Z" 50,
       mkNdviItem "2024-06-01T00:00:00Z" 120] }]

/-! ### Helper lemmas -/

lemma processItem_sample_ne_zero {α : Type} (output_name : String)
    (item : Item α) (r : ProcessedItem α)
    (h : processItem output_name item = some r) :
    r.sample_count.getD 0 ≠ 0 := by
  unfold processItem at h
  repeat' split at h
  all_goals simp_all
  all_goals (repeat' split at h)
  all_goals simp_all
  all_goals (try subst h)
  all_goals simp_all

lemma mem_run_statistical_request {α : Type} (pages : List (Page α))
    (output_name : String) (r : ProcessedItem α)
    (h : r ∈ run_statistical_request pages output_name) :
    ∃ item, processItem output_name item = some r := by
  unfold run_statistical_request at h
  rw [List.mem_flatten] at h
  obtain ⟨l, hl, hr⟩ := h
  rw [List.mem_map] at hl
  obtain ⟨page, _, rfl⟩ := hl
  unfold processPage at hr
  rcases page with ⟨data⟩
  cases data with
  | none => simp at hr
  | some items =>
    simp only at hr
    rw [List.mem_filterMap] at hr
    obtain ⟨item, _, hi⟩ := hr
    exact ⟨item, hi⟩

/-- C5 — every element surviving the statistics-processing step has a
nonzero sample count. -/
theorem c5_zero_sample_discarded {α : Type} (pages : List (Page α))
    (output_name : String) (r : ProcessedItem α)
    (h : r ∈ run_statistical_request pages output_name) :
    r.sample_count.getD 0 ≠ 0 := by
  obtain ⟨item, hi⟩ := mem_run_statistical_request pages output_name r h
  exact processItem_sample_ne_zero output_name item r hi

/-- C5 witness: a concrete response with one 1000-sample entry; the entry
survives and the theorem applies to it. -/
theorem c5_zero_sample_discarded_witness :
    (mkNdviRecord "2024-06-01T00:00:00Z" 1000 ∈
      run_statistical_request
        [{ data := some [mkNdviItem "2024-06-01T00:00:00Z" 1000] }] "ndvi") ∧
    (mkNdviRecord "2024-06-01T00:00:00Z" 1000).sample_count.getD 0 ≠ 0 :=
  ⟨by decide,
   c5_zero_sample_discarded
     [{ data := some [mkNdviItem "2024-06-01T00:00:00Z" 1000] }] "ndvi"
     (mkNdviRecord "2024-06-01T00:00:00Z" 1000) (by decide)⟩

/-- C4 counterexample: two raw entries on 2024-06-01 with sample counts 50
and 120 — the statistics-processing step keeps BOTH, so the output does
not contain at most one record per date. -/
theorem c4_dedup_counterexample :
    ¬ ((run_statistical_request sameDayPages "ndvi").countP
        (fun r => r.date == "2024-06-01T00:00:00Z") ≤ 1) := by
  decide

/-- C4 amended: the processing step performs no per-date deduplication and
no tie-break — every entry that survives the per-item filters yields its
own output record, in input order, even when dates coincide. -/
theorem c4_no_dedup_amended {α : Type} (output_name : String)
    (i₁ i₂ : Item α) (r₁ r₂ : ProcessedItem α)
    (h₁ : processItem output_name i₁ = some r₁)
    (h₂ : processItem output_name i₂ = some r₂) :
    run_statistical_request [{ data := some [i₁, i₂] }] output_name =
      [r₁, r₂] := by
  simp [run_statistical_request, processPage, List.filterMap_cons, h₁, h₂]

/-- C4 amended witness: the spec's own 50-vs-120 vector; both entries come
through, in input order. -/
theorem c4_no_dedup_amended_witness :
    run_statistical_request sameDayPages "ndvi" =
      [mkNdviRecord "2024-06-01T00:00:00Z" 50,
       mkNdviRecord "2024-06-01T00:00:00Z" 120] :=
  c4_no_dedup_amended "ndvi"
    (mkNdviItem "2024-06-01T00:00:00Z" 50)
    (mkNdviItem "2024-06-01T00:00:00Z" 120)
    (mkNdviRecord "2024-06-01T00:00:00Z" 50)
    (mkNdviRecord "2024-06-01T00:00:00Z" 120)
    (by decide) (by decide)

lemma saveIndexStats_cons {α : Type} (store : List (RegionStatRow α))
    (rn it : String) (r : ProcessedItem α) (rs : List (ProcessedItem α)) :
    saveIndexStats store rn it (r :: rs) =
      saveIndexStats (store ++ [rowOfRecord rn it r]) rn it rs := rfl

lemma saveIndexStats_eq_append {α : Type} (rn it : String)
    (rs : List (ProcessedItem α)) :
    ∀ store, saveIndexStats store rn it rs =
      store ++ saveIndexStats [] rn it rs := by
  induction rs with
  | nil => intro store; simp [saveIndexStats]
  | cons r rs ih =>
    intro store
    rw [saveIndexStats_cons, saveIndexStats_cons,
      ih (store ++ [rowOfRecord rn it r]), ih ([] ++ [rowOfRecord rn it r])]
    simp

lemma countKey_append {α : Type} (a b : List (RegionStatRow α))
    (k : String × String × String) :
    countKey (a ++ b) k = countKey a k + countKey b k := by
  simp [countKey, List.countP_append]

lemma saveIndexStats_nil_map {α : Type} (rn it : String)
    (rs : List (ProcessedItem α)) :
    saveIndexStats [] rn it rs = rs.map (rowOfRecord rn it) := by
  induction rs with
  | nil => rfl
  | cons r rs ih =>
    rw [saveIndexStats_cons,
      saveIndexStats_eq_append rn it rs ([] ++ [rowOfRecord rn it r]), ih]
    simp

lemma delete_region_statistics_append {α : Type}
    (a b : List (RegionStatRow α)) (rn : String) :
    delete_region_statistics (a ++ b) rn =
      delete_region_statistics a rn ++ delete_region_statistics b rn := by
  simp [delete_region_statistics, List.filter_append]

lemma delete_region_statistics_idem {α : Type}
    (store : List (RegionStatRow α)) (rn : String) :
    delete_region_statistics (delete_region_statistics store rn) rn =
      delete_region_statistics store rn := by
  simp [delete_region_statistics, List.filter_filter]

lemma delete_region_statistics_map_rowOf {α : Type} (rn it : String)
    (rs : List (ProcessedItem α)) :
    delete_region_statistics (rs.map (rowOfRecord rn it)) rn = [] := by
  induction rs with
  | nil => rfl
  | cons r rs ih =>
    simp only [List.map_cons, delete_region_statistics, List.filter_cons,
      rowOfRecord] at *
    simpa using ih

lemma delete_fetch_and_save {α : Type} (store : List (RegionStatRow α))
    (rn : String) (nd nw : List (ProcessedItem α)) :
    delete_region_statistics (fetch_and_save_stats store rn nd nw) rn =
      delete_region_statistics store rn := by
  unfold fetch_and_save_stats
  rw [saveIndexStats_eq_append rn "NDWI" nw,
    saveIndexStats_eq_append rn "NDVI" nd,
    saveIndexStats_nil_map, saveIndexStats_nil_map,
    delete_region_statistics_append, delete_region_statistics_append,
    delete_region_statistics_idem, delete_region_statistics_map_rowOf,
    delete_region_statistics_map_rowOf]
  simp

lemma countKey_delete_region {α : Type} (store : List (RegionStatRow α))
    (rn d it : String) :
    countKey (delete_region_statistics store rn) (rn, d, it) = 0 := by
  rw [countKey, delete_region_statistics, List.countP_filter,
    List.countP_eq_zero]
  intro row _
  by_cases hr : row.region_name = rn <;>
    simp [naturalKey, Prod.ext_iff, hr]

lemma countKey_map_rowOf {α : Type} (rn it d : String)
    (rs : List (ProcessedItem α)) :
    countKey (rs.map (rowOfRecord rn it)) (rn, d, it) =
      rs.countP (fun r => decide (r.date = d)) := by
  rw [countKey, List.countP_map]
  refine List.countP_congr ?_
  intro r _
  simp [naturalKey, rowOfRecord, Prod.ext_iff]

lemma countKey_map_rowOf_ne {α : Type} (rn it it₂ d : String)
    (hne : it ≠ it₂) (rs : List (ProcessedItem α)) :
    countKey (rs.map (rowOfRecord rn it)) (rn, d, it₂) = 0 := by
  rw [countKey, List.countP_map, List.countP_eq_zero]
  intro r _
  simp [naturalKey, rowOfRecord, Prod.ext_iff]
  exact fun _ h => absurd h hne

/-- C2 counterexample: the statistics-processing step can hand the
ingestion a response carrying two entries for the same date (no dedup —
the 50-vs-120 same-day pages); ingesting that response twice, per-region
delete included, leaves TWO stored rows with the natural key
`("Bratislava", "2024-06-01T00:00:00Z", "NDVI")`, not exactly one. -/
theorem c2_duplicate_key_counterexample :
    countKey
      (fetch_and_save_stats
        (fetch_and_save_stats ([] : List (RegionStatRow Int)) "Bratislava"
          (run_statistical_request sameDayPages "ndvi") [])
        "Bratislava" (run_statistical_request sameDayPages "ndvi") [])
      ("Bratislava", "2024-06-01T00:00:00Z", "NDVI") = 2 ∧
    ¬ (countKey
      (fetch_and_save_stats
        (fetch_and_save_stats ([] : List (RegionStatRow Int)) "Bratislava"
          (run_statistical_request sameDayPages "ndvi") [])
        "Bratislava" (run_statistical_request sameDayPages "ndvi") [])
      ("Bratislava", "2024-06-01T00:00:00Z", "NDVI") = 1) := by
  constructor
  · decide
  · decide

/-- C2 amended: the ingestion never accumulates across runs — the routine
deletes the region's rows before re-inserting, so running it twice with
identical responses leaves the store exactly equal to a single run's
result (delete-then-replace, not row-level overwrite); and after a run
the count per natural key equals the number of response entries carrying
that date for the index type — exactly one precisely when the response
mentions the date once, but duplicate-date responses yield duplicate
rows even in a single run. -/
theorem c2_delete_then_insert_amended {α : Type}
    (store : List (RegionStatRow α)) (rn : String)
    (nd nw : List (ProcessedItem α)) :
    fetch_and_save_stats (fetch_and_save_stats store rn nd nw) rn nd nw =
      fetch_and_save_stats store rn nd nw ∧
    (∀ d, countKey (fetch_and_save_stats store rn nd nw) (rn, d, "NDVI") =
      nd.countP (fun r => decide (r.date = d))) ∧
    (∀ d, countKey (fetch_and_save_stats store rn nd nw) (rn, d, "NDWI") =
      nw.countP (fun r => decide (r.date = d))) := by
  refine ⟨?_, ?_, ?_⟩
  · show saveIndexStats
      (saveIndexStats
        (delete_region_statistics (fetch_and_save_stats store rn nd nw) rn)
        rn "NDVI" nd)
      rn "NDWI" nw = fetch_and_save_stats store rn nd nw
    rw [delete_fetch_and_save]
    rfl
  · intro d
    show countKey
      (saveIndexStats
        (saveIndexStats (delete_region_statistics store rn) rn "NDVI" nd)
        rn "NDWI" nw) (rn, d, "NDVI") = _
    rw [saveIndexStats_eq_append rn "NDWI" nw,
      saveIndexStats_eq_append rn "NDVI" nd,
      saveIndexStats_nil_map, saveIndexStats_nil_map,
      countKey_append, countKey_append, countKey_delete_region,
      countKey_map_rowOf,
      countKey_map_rowOf_ne rn "NDWI" "NDVI" d (by decide)]
    omega
  · intro d
    show countKey
      (saveIndexStats
        (saveIndexStats (delete_region_statistics store rn) rn "NDVI" nd)
        rn "NDWI" nw) (rn, d, "NDWI") = _
    rw [saveIndexStats_eq_append rn "NDWI" nw,
      saveIndexStats_eq_append rn "NDVI" nd,
      saveIndexStats_nil_map, saveIndexStats_nil_map,
      countKey_append, countKey_append, countKey_delete_region,
      countKey_map_rowOf,
      countKey_map_rowOf_ne rn "NDVI" "NDWI" d (by decide)]
    omega

/-! ### Scheduler fixtures -/

/-- The settings defaults of `config/settings.py`. -/
def defaultSettings : Settings :=
  { SCHEDULER_ENABLED := true
    SCHEDULER_INTERVAL_HOURS := 4
    DEFAULT_SEARCH_BOUNDS :=
      "POLYGON((17.50 48.30, 17.70 48.30, 17.70 48.45, 17.50 48.45, 17.50 48.30))"
    DEFAULT_CLOUD_MAX := 30
    PROCESS_HISTORICAL_DATA := false }

/-- Collaborators that all answer successfully and emptily. -/
def okOracle : SchedulerOracle :=
  { available := true
    latestProcessedDate := none
    parseIso := fun _ => .ok 0
    searchProducts := fun _ _ => .ok []
    insert_satellite_image := fun _ => .ok ()
    getImageRow := fun _ => .ok none
    check_image_has_indices := fun _ =>
      { has_ndvi := false, has_ndwi := false, has_both := false }
    calc_ndvi := fun image_id _ => .ok { image_id := image_id }
    insert_ndvi_data := fun _ => .ok ()
    calc_ndwi := fun image_id _ => .ok { image_id := image_id }
    insert_ndwi_data := fun _ => .ok () }

/-- Collaborators behind an unconfigured Copernicus client. -/
def unavailableOracle : SchedulerOracle :=
  { okOracle with available := false }

/-- Collaborators whose product search raises a provider error. -/
def searchFailOracle : SchedulerOracle :=
  { okOracle with searchProducts := fun _ _ => .error { msg := "provider unreachable" } }

/-! ### Scheduler helper lemmas -/

lemma fetchBody_cases (o : SchedulerOracle) (st : Settings) (now : Int)
    (s : SchedState) :
    (fetchBody o st now s).state.total_runs = s.total_runs + 1 ∧
    (fetchBody o st now s).state.last_run = some now ∧
    (fetchBody o st now s).state.failed_runs = s.failed_runs ∧
    (fetchBody o st now s).state.is_running = s.is_running ∧
    (fetchBody o st now s).state.scheduler = s.scheduler ∧
    ((fetchBody o st now s).escaped ≠ none →
      (fetchBody o st now s).state.successful_runs = s.successful_runs) ∧
    (o.available = false →
      (fetchBody o st now s).state.successful_runs = s.successful_runs ∧
      (fetchBody o st now s).escaped = none) ∧
    (o.available = true → (fetchBody o st now s).escaped = none →
      (fetchBody o st now s).state.successful_runs = s.successful_runs + 1) := by
  unfold fetchBody
  cases ha : o.available
  · simp [ha]
  · simp only [ha]
    cases hw : computeWindow st.PROCESS_HISTORICAL_DATA
        o.latestProcessedDate o.parseIso now with
    | error e => simp [hw]
    | ok w =>
      obtain ⟨a, b⟩ := w
      cases hs : o.searchProducts a b with
      | error e => simp [hw, hs]
      | ok products =>
        cases products with
        | nil => simp [hw, hs]
        | cons p ps => simp [hw, hs]

lemma run_cases (o : SchedulerOracle) (st : Settings) (now : Int)
    (s : SchedState) :
    (fetch_and_process_sentinel_data o st now s).state.total_runs =
      s.total_runs + 1 ∧
    (fetch_and_process_sentinel_data o st now s).state.last_run = some now ∧
    (fetch_and_process_sentinel_data o st now s).state.is_running =
      s.is_running ∧
    (fetch_and_process_sentinel_data o st now s).state.scheduler =
      s.scheduler ∧
    ((o.available = true ∧
      (((fetch_and_process_sentinel_data o st now s).state.successful_runs =
          s.successful_runs + 1 ∧
        (fetch_and_process_sentinel_data o st now s).state.failed_runs =
          s.failed_runs) ∨
       ((fetch_and_process_sentinel_data o st now s).state.successful_runs =
          s.successful_runs ∧
        (fetch_and_process_sentinel_data o st now s).state.failed_runs =
          s.failed_runs + 1))) ∨
     (o.available = false ∧
      (fetch_and_process_sentinel_data o st now s).state.successful_runs =
        s.successful_runs ∧
      (fetch_and_process_sentinel_data o st now s).state.failed_runs =
        s.failed_runs)) := by
  obtain ⟨h₁, h₂, h₃, h₄, h₅, h₆, h₇, h₈⟩ := fetchBody_cases o st now s
  unfold fetch_and_process_sentinel_data
  cases he : (fetchBody o st now s).escaped with
  | none =>
    simp only [he]
    refine ⟨h₁, h₂, h₄, h₅, ?_⟩
    cases ha : o.available
    · exact Or.inr ⟨rfl, (h₇ ha).1, h₃⟩
    · exact Or.inl ⟨rfl, Or.inl ⟨h₈ ha he, h₃⟩⟩
  | some e =>
    simp only [he]
    refine ⟨h₁, h₂, h₄, h₅, ?_⟩
    cases ha : o.available
    · exact absurd (h₇ ha).2 (by simp [he])
    · exact Or.inl ⟨rfl, Or.inr ⟨h₆ (by simp [he]),
        congrArg (fun n => n + 1) h₃⟩⟩

lemma runMany_counts (st : Settings) (runs : List (SchedulerOracle × Int)) :
    ∀ s, (runMany st runs s).total_runs = s.total_runs + runs.length ∧
      (runMany st runs s).successful_runs + (runMany st runs s).failed_runs +
        countSkipped runs =
        s.successful_runs + s.failed_runs + runs.length := by
  induction runs with
  | nil => intro s; simp [runMany, countSkipped]
  | cons r rs ih =>
    intro s
    have hfold : runMany st (r :: rs) s =
        runMany st rs (fetch_and_process_sentinel_data r.1 st r.2 s).state :=
      rfl
    obtain ⟨ht, _, _, _, hd⟩ := run_cases r.1 st r.2 s
    obtain ⟨ih₁, ih₂⟩ := ih (fetch_and_process_sentinel_data r.1 st r.2 s).state
    rw [hfold]
    constructor
    · rw [ih₁, ht]
      simp only [List.length_cons]
      omega
    · have hskip : countSkipped (r :: rs) =
          countSkipped rs + (if r.1.available = false then 1 else 0) := by
        simp [countSkipped, List.countP_cons]
      rw [hskip]
      rcases hd with ⟨ha, hc⟩ | ⟨ha, hsucc, hfail⟩
      · have hif : (if r.1.available = false then 1 else 0) = 0 := by
          simp [ha]
        rcases hc with ⟨hsucc, hfail⟩ | ⟨hsucc, hfail⟩ <;>
          (rw [hsucc, hfail] at ih₂; rw [hif]; simp only [List.length_cons];
            omega)
      · have hif : (if r.1.available = false then 1 else 0) = 1 := by
          simp [ha]
        rw [hsucc, hfail] at ih₂
        rw [hif]
        simp only [List.length_cons]
        omega

/-- C1 counterexample: with an unconfigured Copernicus client the job
returns early — `total_runs` rises to 1 while neither `successful_runs`
nor `failed_runs` moves, so `total_runs = successful_runs + failed_runs`
fails after this completed run from the all-zero counters. -/
theorem c1_skipped_run_counterexample :
    (fetch_and_process_sentinel_data unavailableOracle defaultSettings 0
      initState).state.total_runs = 1 ∧
    (fetch_and_process_sentinel_data unavailableOracle defaultSettings 0
      initState).state.successful_runs = 0 ∧
    (fetch_and_process_sentinel_data unavailableOracle defaultSettings 0
      initState).state.failed_runs = 0 ∧
    ¬ ((fetch_and_process_sentinel_data unavailableOracle defaultSettings 0
        initState).state.total_runs =
      (fetch_and_process_sentinel_data unavailableOracle defaultSettings 0
        initState).state.successful_runs +
      (fetch_and_process_sentinel_data unavailableOracle defaultSettings 0
        initState).state.failed_runs) := by
  refine ⟨rfl, rfl, rfl, ?_⟩
  decide

/-- C1 amended: every completed run increments `total_runs` by exactly
one; when the provider client is available exactly one of
`successful_runs`/`failed_runs` increments, but a run skipped because the
client is unavailable increments neither — so from the all-zero counters,
`successful_runs + failed_runs` undercounts `total_runs` by exactly the
number of skipped runs. -/
theorem c1_counters_amended :
    (∀ (o : SchedulerOracle) (st : Settings) (now : Int) (s : SchedState),
      (fetch_and_process_sentinel_data o st now s).state.total_runs =
        s.total_runs + 1 ∧
      ((o.available = true ∧
        (((fetch_and_process_sentinel_data o st now s).state.successful_runs =
            s.successful_runs + 1 ∧
          (fetch_and_process_sentinel_data o st now s).state.failed_runs =
            s.failed_runs) ∨
         ((fetch_and_process_sentinel_data o st now s).state.successful_runs =
            s.successful_runs ∧
          (fetch_and_process_sentinel_data o st now s).state.failed_runs =
            s.failed_runs + 1))) ∨
       (o.available = false ∧
        (fetch_and_process_sentinel_data o st now s).state.successful_runs =
          s.successful_runs ∧
        (fetch_and_process_sentinel_data o st now s).state.failed_runs =
          s.failed_runs))) ∧
    (∀ (st : Settings) (runs : List (SchedulerOracle × Int)),
      (runMany st runs initState).total_runs = runs.length ∧
      (runMany st runs initState).successful_runs +
        (runMany st runs initState).failed_runs + countSkipped runs =
        runs.length) := by
  constructor
  · intro o st now s
    obtain ⟨h₁, _, _, _, hd⟩ := run_cases o st now s
    exact ⟨h₁, hd⟩
  · intro st runs
    obtain ⟨h₁, h₂⟩ := runMany_counts st runs initState
    constructor
    · simpa [initState] using h₁
    · simpa [initState] using h₂

/-- C3 — for every behaviour of the collaborators, the job returns
normally: no exception escapes `fetch_and_process_sentinel_data`, and an
exception escaping its `try` body is recorded as a failed run. -/
theorem c3_never_propagates (o : SchedulerOracle) (st : Settings)
    (now : Int) (s : SchedState) :
    (fetch_and_process_sentinel_data o st now s).escaped = none ∧
    (∀ e, (fetchBody o st now s).escaped = some e →
      (fetch_and_process_sentinel_data o st now s).state.failed_runs =
        s.failed_runs + 1) := by
  have h₃ := (fetchBody_cases o st now s).2.2.1
  unfold fetch_and_process_sentinel_data
  cases he : (fetchBody o st now s).escaped with
  | none =>
    refine ⟨by simp only [he], ?_⟩
    intro e hcontra
    exact absurd hcontra (by simp)
  | some e =>
    refine ⟨by simp only [he], ?_⟩
    intro e₂ _
    simp only [he]
    exact congrArg (fun n => n + 1) h₃

/-- C3 witness: a run whose provider search raises — the wrapper returns
normally and the run is recorded as failed. -/
theorem c3_never_propagates_witness :
    (fetch_and_process_sentinel_data searchFailOracle defaultSettings 0
      initState).escaped = none ∧
    (fetch_and_process_sentinel_data searchFailOracle defaultSettings 0
      initState).state.failed_runs = initState.failed_runs + 1 :=
  ⟨(c3_never_propagates searchFailOracle defaultSettings 0 initState).1,
   (c3_never_propagates searchFailOracle defaultSettings 0 initState).2
     { msg := "provider unreachable" } rfl⟩

/-- C10 — every invocation stamps `last_run` with its start time, before
any collaborator is consulted: it holds for failed runs and for runs
skipped because the provider client is unavailable. -/
theorem c10_last_run_stamped (o : SchedulerOracle) (st : Settings)
    (now : Int) (s : SchedState) :
    (fetch_and_process_sentinel_data o st now s).state.last_run =
      some now :=
  (run_cases o st now s).2.1

/-- C7 — a run whose provider search succeeds with an empty product list
counts as successful: `successful_runs` rises by one, `failed_runs` is
unchanged, and no record-store write is attempted. -/
theorem c7_no_data_is_success (o : SchedulerOracle) (st : Settings)
    (now : Int) (s : SchedState) (w : Int × Int)
    (h₁ : o.available = true)
    (h₂ : computeWindow st.PROCESS_HISTORICAL_DATA o.latestProcessedDate
      o.parseIso now = .ok w)
    (h₃ : o.searchProducts w.1 w.2 = .ok []) :
    (fetch_and_process_sentinel_data o st now s).state.successful_runs =
      s.successful_runs + 1 ∧
    (fetch_and_process_sentinel_data o st now s).state.failed_runs =
      s.failed_runs ∧
    writeEvents (fetch_and_process_sentinel_data o st now s).events = [] := by
  obtain ⟨a, b⟩ := w
  unfold fetch_and_process_sentinel_data fetchBody
  simp [h₁, h₂, h₃, writeEvents]

/-- C7 witness: the all-quiet collaborators return an empty product list;
the run counts as successful and attempts no write. -/
theorem c7_no_data_is_success_witness :
    (fetch_and_process_sentinel_data okOracle defaultSettings 0
      initState).state.successful_runs = initState.successful_runs + 1 ∧
    (fetch_and_process_sentinel_data okOracle defaultSettings 0
      initState).state.failed_runs = initState.failed_runs ∧
    writeEvents (fetch_and_process_sentinel_data okOracle defaultSettings 0
      initState).events = [] :=
  c7_no_data_is_success okOracle defaultSettings 0 initState (0 - 7, 0)
    rfl rfl rfl

/-- Success test on `Except` (Python: the call did not raise). -/
def isOk {ε α : Type} : Except ε α → Bool
  | .ok _ => true
  | .error _ => false

lemma isOk_ok {ε α : Type} (a : α) : isOk (Except.ok a : Except ε α) = true :=
  rfl

lemma isOk_error {ε α : Type} (e : ε) :
    isOk (Except.error e : Except ε α) = false := rfl

lemma save_to_supabase_fst (o : SchedulerOracle) :
    ∀ (ps : List Product) (acc : Nat × List Event),
      (ps.foldl
        (fun acc p =>
          let evts := acc.2 ++ [Event.insertImage p.product_id]
          match o.insert_satellite_image (prepare_image_data p) with
          | .ok _ => (acc.1 + 1, evts)
          | .error _ => (acc.1, evts)) acc).1 =
      acc.1 + (ps.filter
        (fun p => isOk (o.insert_satellite_image (prepare_image_data p)))).length := by
  intro ps
  induction ps with
  | nil => intro acc; simp
  | cons p pr ih =>
    intro acc
    cases h : o.insert_satellite_image (prepare_image_data p) with
    | ok u =>
      simp only [List.foldl_cons, List.filter_cons, h, isOk_ok, if_true]
      rw [ih]
      simp only [List.length_cons]
      omega
    | error e =>
      simp only [List.foldl_cons, List.filter_cons, h, isOk_error,
        Bool.false_eq_true, if_false]
      rw [ih]

lemma save_to_supabase_count (o : SchedulerOracle) (ps : List Product) :
    (save_to_supabase o ps).1 =
      (ps.filter
        (fun p => isOk (o.insert_satellite_image (prepare_image_data p)))).length := by
  unfold save_to_supabase
  rw [save_to_supabase_fst o ps (0, [])]
  simp

/-- C6 — a persistence failure for one product is caught and skipped:
every product is still attempted, `saved_count` equals the number of
successful inserts, and the run is recorded as a success. -/
theorem c6_partial_persistence (o : SchedulerOracle) (st : Settings)
    (now : Int) (s : SchedState) (ps : List Product) (w : Int × Int)
    (h₁ : o.available = true)
    (h₂ : computeWindow st.PROCESS_HISTORICAL_DATA o.latestProcessedDate
      o.parseIso now = .ok w)
    (h₃ : o.searchProducts w.1 w.2 = .ok ps)
    (h₄ : ps ≠ []) :
    (fetch_and_process_sentinel_data o st now s).saved =
      some ((ps.filter
        (fun p => isOk (o.insert_satellite_image (prepare_image_data p)))).length) ∧
    (fetch_and_process_sentinel_data o st now s).state.successful_runs =
      s.successful_runs + 1 ∧
    (fetch_and_process_sentinel_data o st now s).state.failed_runs =
      s.failed_runs := by
  obtain ⟨a, b⟩ := w
  cases ps with
  | nil => exact absurd rfl h₄
  | cons p pr =>
    unfold fetch_and_process_sentinel_data fetchBody
    simp [h₁, h₂, h₃, save_to_supabase_count]

/-! C6 fixtures: three products; the store rejects the middle one. -/

/-- A minimal product dict with the given id. -/
def mkProduct (pid : String) : Product :=
  { product_id := pid
    title := "S2A_MSIL2A"
    acquisition_date := "2024-06-01T00:00:00"
    processing_date := none
    cloud_coverage := 10
    footprint := ""
    center_point := none
    thumbnail_url := ""
    download_url := ""
    metadata := "" }

/-- Three canonical products for one run. -/
def threeProducts : List Product :=
  [mkProduct "P1", mkProduct "P2", mkProduct "P3"]

/-- Collaborators that find three products and fail to persist exactly the
second. -/
def failP2Oracle : SchedulerOracle :=
  { okOracle with
    searchProducts := fun _ _ => .ok threeProducts
    insert_satellite_image := fun d =>
      if d.product_id == "P2" then .error { msg := "StoreError" } else .ok () }

/-- C6 witness: of three products exactly one insert fails; the saved
count is 2 (lower than 3) and the run still counts as successful. -/
theorem c6_partial_persistence_witness :
    (fetch_and_process_sentinel_data failP2Oracle defaultSettings 0
      initState).saved = some 2 ∧
    (fetch_and_process_sentinel_data failP2Oracle defaultSettings 0
      initState).state.successful_runs = 1 ∧
    (fetch_and_process_sentinel_data failP2Oracle defaultSettings 0
      initState).state.failed_runs = 0 ∧
    threeProducts.length = 3 := by
  obtain ⟨hs, hsucc, hfail⟩ :=
    c6_partial_persistence failP2Oracle defaultSettings 0 initState
      threeProducts (0 - 7, 0) rfl rfl rfl (by decide)
  refine ⟨?_, hsucc, hfail, rfl⟩
  rw [hs]
  decide

/-- Collaborators for a store with no previously processed image and an
empty (but successful) product search. -/
def freshStoreOracle : SchedulerOracle := okOracle

/-- C8 counterexample: a periodic run at day 100 with no previously
processed date queries the window `[93, 100]` — seven days back, not the
claimed one-day lookback `[99, 100]`. -/
theorem c8_lookback_counterexample :
    (fetch_and_process_sentinel_data freshStoreOracle defaultSettings 100
      initState).events = [Event.searchCall 93 100] ∧
    (93 : Int) ≠ 100 - 1 := by
  constructor
  · rfl
  · decide

/-- C8 amended: the job's search window is `[latest_processed_date, now]`
when a latest processed date exists and `PROCESS_HISTORICAL_DATA` is off
(a parse failure fails the run), and `[now - 7 days, now]` otherwise; no
one-day lookback exists. -/
theorem c8_window_amended (parse : String → Except PyErr Int) (now : Int) :
    (∀ ph, computeWindow ph none parse now = .ok (now - 7, now)) ∧
    (∀ d, computeWindow true (some d) parse now = .ok (now - 7, now)) ∧
    (∀ d, computeWindow false (some d) parse now =
      (parse d).map (fun x => (x, now))) := by
  refine ⟨fun ph => ?_, fun d => rfl, fun d => ?_⟩
  · cases ph <;> rfl
  · cases h : parse d <;> simp [computeWindow, h, Except.map]

/-- C8 amended witness: at day 100 with a stored latest date parsing to
day 98, the window is `[98, 100]`; with none it is `[93, 100]`. -/
theorem c8_window_amended_witness :
    computeWindow false none (fun _ => .ok 98) 100 = .ok (93, 100) ∧
    computeWindow true (some "2024-06-01") (fun _ => .ok 98) 100 =
      .ok (93, 100) ∧
    computeWindow false (some "2024-06-01") (fun _ => .ok 98) 100 =
      ((fun _ => (.ok 98 : Except PyErr Int)) "2024-06-01").map
        (fun x => (x, 100)) :=
  ⟨(c8_window_amended (fun _ => .ok 98) 100).1 false,
   (c8_window_amended (fun _ => .ok 98) 100).2.1 "2024-06-01",
   (c8_window_amended (fun _ => .ok 98) 100).2.2 "2024-06-01"⟩

/-- C9 — `get_status` returns a dict with exactly the ten documented keys,
in order, and leaves every scheduler field unchanged. -/
theorem c9_get_status_snapshot (st : Settings) (s : SchedState) :
    (get_status st s).1.map Prod.fst =
      ["enabled", "running", "interval_hours", "last_run", "next_run",
       "total_runs", "successful_runs", "failed_runs", "search_bounds",
       "max_cloud_coverage"] ∧
    (get_status st s).2 = s :=
  ⟨rfl, rfl⟩
